import Mathlib

/-!
Verification development for the HubSpot Conversations webhook bot.

The repository contains several near-duplicate iterations of the same
design; the canonical (most complete) iteration is the one that carries the
reply policy, bounce filter, review mode and CRM tagging
(`src/unnamed/part_000`, second file).  The definitions below are a shallow
embedding of that iteration:

* pure helpers (`detectIntent`, `makeReply`, `findLatestInboundEmail`,
  `extractSenderEmail`, `isBounce`, ...) are translated directly;
* the process-wide TTL sets (`processedEventIds`, `commentedThreads`,
  `repliedThreads`) are modelled by `ExpSet`: a membership list plus the
  list of pending `setTimeout` deletion timers scheduled by `remember`
  (`set.add(key); setTimeout(() => set.delete(key), ms)`);
* time is an explicit `Nat` (milliseconds); firing the timers that are due
  at time `t` is `ExpSet.fire`;
* every outbound HTTP call becomes an emitted `Action`; the responses the
  collaborator APIs would give are supplied by an `Oracle` record
  (fetch results, actor lookups, CRM lookups, success flags and the
  wall-clock ISO string used by contact tagging);
* JavaScript truthiness on string-valued fields is modelled by
  `Option String` where `none` is `undefined`/`null` and the empty string
  is the remaining falsy string; numeric configuration
  (`REPLY_TTL_HOURS`) is modelled already parsed, with its default applied
  as in the source.
-/

namespace AlexIo

/-! ## JavaScript string helpers -/

/-- Truthiness of an optional JS string: `undefined`, `null` and `""` are
falsy. -/
def jsTruthy : Option String → Bool
  | none => false
  | some s => s ≠ ""

/-- `a || b` on an optional JS string with a string default. -/
def jsOr (a : Option String) (b : String) : String :=
  match a with
  | none => b
  | some s => if s = "" then b else s

/-- Template-literal interpolation of a possibly-absent value:
`undefined` prints as `"undefined"`. -/
def jsInterp : Option String → String
  | none => "undefined"
  | some s => s

/-- `pat.isPrefixOf s` on character lists; the empty pattern matches. -/
def isPrefixChars : List Char → List Char → Bool
  | [], _ => true
  | _ :: _, [] => false
  | p :: ps, c :: cs => p = c && isPrefixChars ps cs

/-- `s.includes(pat)` on character lists. -/
def containsChars (pat : List Char) : List Char → Bool
  | [] => pat.isEmpty
  | c :: cs => isPrefixChars pat (c :: cs) || containsChars pat cs

/-- ASCII lower-casing of a JS `toLowerCase()` call (all strings the
source compares after lowering are ASCII). -/
def strLower (s : String) : String := String.mk (s.toList.map Char.toLower)

/-- ASCII upper-casing of a JS `toUpperCase()` call. -/
def strUpper (s : String) : String := String.mk (s.toList.map Char.toUpper)

/-- `s.includes(pat)` (JS `String.prototype.includes`). -/
def strIncludes (s pat : String) : Bool :=
  containsChars pat.toList s.toList

/-- `s.startsWith(pat)` (JS `String.prototype.startsWith`). -/
def strStartsWith (s pat : String) : Bool :=
  isPrefixChars pat.toList s.toList

/-! ## The shared email regular expression

`EMAIL_RE = /[A-Z0-9._%+-]+@[A-Z0-9.-]+\.[A-Z]{2,}/i`, used both as a
test (`EMAIL_RE.test`) and for extraction (`v.match(EMAIL_RE)[0]`).
`emailMatch` implements the leftmost match of this concrete pattern: a
maximal run of local-part characters must be followed by `@` (no shorter
run can succeed, as `@` is not a local-part character), then the greedy
domain run backtracks to the last position where a literal `.` is followed
by at least two letters. -/

def isLocalChar (c : Char) : Bool :=
  c.isAlpha || c.isDigit || c = '.' || c = '_' || c = '%' || c = '+' || c = '-'

def isDomainChar (c : Char) : Bool :=
  c.isAlpha || c.isDigit || c = '.' || c = '-'

/-- Try domain lengths `j, j-1, ..., 1` against `rest`: the characters
after `@`.  A successful match returns the whole matched substring. -/
def tryDomain (loc : List Char) (rest : List Char) : Nat → Option (List Char)
  | 0 => none
  | j + 1 =>
    match rest.drop (j + 1) with
    | '.' :: tail =>
      let al := tail.takeWhile Char.isAlpha
      if 2 ≤ al.length then
        some (loc ++ '@' :: (rest.take (j + 1) ++ '.' :: al))
      else
        tryDomain loc rest j
    | _ => tryDomain loc rest j

/-- Match the email pattern at the start of `cs`. -/
def matchEmailAt (cs : List Char) : Option (List Char) :=
  let loc := cs.takeWhile isLocalChar
  if loc.isEmpty then none
  else
    match cs.drop loc.length with
    | '@' :: rest =>
      let dom := rest.takeWhile isDomainChar
      tryDomain loc rest dom.length
    | _ => none

/-- Leftmost match of `EMAIL_RE` in a character list. -/
def emailMatch : List Char → Option (List Char)
  | [] => none
  | c :: cs =>
    match matchEmailAt (c :: cs) with
    | some m => some m
    | none => emailMatch cs

/-- `EMAIL_RE.test(s)`. -/
def emailTest (s : String) : Bool :=
  (emailMatch s.toList).isSome

/-- `(s.match(EMAIL_RE) || [null])[0]`. -/
def emailExtract (s : String) : Option String :=
  (emailMatch s.toList).map fun cs => String.mk cs

/-! ## Expiring key sets

`remember(set, key, ms)` adds `key` to the JS `Set` and schedules an
unconditional `set.delete(key)` after `ms` milliseconds.  Re-inserting a
key does **not** cancel previously scheduled deletions.  `ExpSet` keeps
the current membership list and the pending deletion timers; `fire t`
runs every timer due at or before `t`. -/

structure ExpSet where
  members : List String
  timers : List (String × Nat)
deriving DecidableEq

def ExpSet.empty : ExpSet := ⟨[], []⟩

/-- Run every deletion timer whose deadline is `≤ t`.  A due timer removes
its key from the membership list; due timers are consumed. -/
def ExpSet.fire (s : ExpSet) (t : Nat) : ExpSet :=
  { members := s.members.filter fun k =>
      !(s.timers.any fun p => p.1 = k && decide (p.2 ≤ t)),
    timers := s.timers.filter fun p => !(decide (p.2 ≤ t)) }

/-- `set.add(key)` plus scheduling `set.delete(key)` at `deadline`
(assumes due timers have already been fired). -/
def ExpSet.insert (s : ExpSet) (k : String) (deadline : Nat) : ExpSet :=
  { members := if s.members.contains k then s.members else k :: s.members,
    timers := (k, deadline) :: s.timers }

/-- Current membership (after firing what is due at `t`). -/
def ExpSet.memAt (s : ExpSet) (t : Nat) (k : String) : Bool :=
  ((s.fire t).members).contains k

/-- `remember(set, key, ms)` executed at wall-clock time `now`. -/
def remember (s : ExpSet) (now : Nat) (k : String) (ms : Nat) : ExpSet :=
  (s.fire now).insert k (now + ms)

/-! ## Duck-typed JSON values

`pickEmailFromObject` probes arbitrary nested payloads.  It only ever
looks at `Object.values` of an object and at the elements of an array —
never at keys — so both are modelled as a collection of child values. -/

inductive JVal where
  | str (s : String)
  | coll (vals : List JVal)
  | other

/-- Body of the `for (const v of Object.values(obj))` loop of
`pickEmailFromObject`: a string value is tested against `EMAIL_RE` and the
matched substring returned; nested objects and arrays are scanned
recursively; anything else is skipped. -/
def pickEmailValue : JVal → Option String
  | .str s => if emailTest s then emailExtract s else none
  | .coll [] => none
  | .coll (v :: vs) =>
    match pickEmailValue v with
    | some e => some e
    | none => pickEmailValue (.coll vs)
  | .other => none

/-- `pickEmailFromObject(obj)`: `null`/non-object input yields `null`; an
object or array is scanned value by value. -/
def pickEmailFromObject : Option JVal → Option String
  | some (.coll vs) => pickEmailValue (.coll vs)
  | _ => none

/-! ## Thread messages -/

structure DeliveryIdentifier where
  type : Option String
  value : Option String
deriving DecidableEq

/-- `s.deliveryIdentifier` may be a single object or an array of them. -/
inductive DeliveryIdentifiers where
  | one (d : DeliveryIdentifier)
  | many (ds : List DeliveryIdentifier)
deriving DecidableEq

structure Sender where
  actorId : Option String
  name : Option String
  email : Option String
  address : Option String
  deliveryIdentifier : Option DeliveryIdentifiers
deriving DecidableEq

/-- Normalized view of one message/comment of a thread, with exactly the
fields the source reads (`m.client?.integrationAppId` is flattened to
`integrationAppId`, `m.from?.email` to `fromEmail`, and so on). -/
structure ThreadMessage where
  type : Option String
  direction : Option String
  integrationAppId : Option String
  senders : List Sender
  channelId : Option String
  channelAccountId : Option String
  subject : Option String
  text : Option String
  fromEmail : Option String
  originFromEmail : Option String
  messageFromEmail : Option String
  replyToEmail : Option String
  headers : Option JVal
  emailHeaders : Option JVal
  createdBy : Option String

/-- A message with every field absent, for building concrete instances. -/
def blankMsg : ThreadMessage :=
  ⟨none, none, none, [], none, none, none, none, none, none, none, none,
   none, none, none⟩

/-! ## Email resolution (the sender-email fallback chain) -/

/-- One `HS_EMAIL_ADDRESS` delivery identifier with a truthy value. -/
def emailOfIdentifier (x : DeliveryIdentifier) : Option String :=
  if x.type = some "HS_EMAIL_ADDRESS" && jsTruthy x.value then x.value else none

def emailOfIdentifiers : DeliveryIdentifiers → Option String
  | .one d => emailOfIdentifier d
  | .many ds => ds.findSome? emailOfIdentifier

/-- Per-sender part of `extractEmailFromSendersArray`: the delivery
identifier first, then `s.email`, then `s.address`. -/
def senderEmail (s : Sender) : Option String :=
  let fromDI :=
    match s.deliveryIdentifier with
    | some di => emailOfIdentifiers di
    | none => none
  match fromDI with
  | some e => some e
  | none =>
    if jsTruthy s.email then s.email
    else if jsTruthy s.address then s.address
    else none

def extractEmailFromSendersArray (senders : List Sender) : Option String :=
  senders.findSome? senderEmail

/-- `(inbound?.senders && inbound.senders[0]?.actorId) || inbound?.createdBy
|| null`. -/
def actorIdCandidate (m : ThreadMessage) : Option String :=
  let fromSenders : Option String :=
    match m.senders with
    | [] => none
    | s :: _ => s.actorId
  if jsTruthy fromSenders then fromSenders
  else if jsTruthy m.createdBy then m.createdBy
  else none

/-- `/^V-\d+/.test(actorId)`. -/
def isVActor (a : String) : Bool :=
  match a.toList with
  | 'V' :: '-' :: c :: _ => c.isDigit
  | _ => false

/-! ## Events, configuration, actions, oracle -/

structure Event where
  subscriptionType : Option String
  objectId : Option String
  eventId : Option String
  occurredAt : Option String
deriving DecidableEq

/-- The recognized environment variables.  String-valued ones keep their
raw string (absent = unset); `REPLY_TTL_HOURS` is modelled already parsed,
its default of 12 applied as in the source. -/
structure Env where
  hubspotAppId : Option String
  autoComment : Option String
  autoReply : Option String
  replyMode : Option String
  senderActorId : Option String
  replyTtlHours : Option Nat
  calendlyUrl : Option String
  intentProperty : Option String
  intentTimeProperty : Option String

/-- An `Env` with everything unset. -/
def blankEnv : Env := ⟨none, none, none, none, none, none, none, none, none⟩

structure SendPayload where
  text : String
  subject : String
  toEmail : String
  senderActorId : String
  channelId : String
  channelAccountId : String
deriving DecidableEq

/-- One outbound collaborator API call. -/
inductive Action where
  | fetchMessages (threadId : String) (limit : Nat)
  | postComment (threadId : String) (text : String)
  | sendMessage (threadId : String) (payload : SendPayload)
  | getActor (actorId : String)
  | findContact (email : String)
  | createContact (email : String)
  | updateContact (contactId : String) (props : List (String × String))
deriving DecidableEq

/-- Responses of the collaborator APIs during one handling pass.
`fetchResult = none` models `getRecentMessages` throwing; `postCommentOk`
and `sendOk` say whether the write call succeeds (a failed call is still
an emitted `Action` — the HTTP request was made); `nowIso` is the
wall-clock ISO string used by contact tagging. -/
structure Oracle where
  fetchResult : Option (List ThreadMessage)
  actor : String → Option JVal
  findContactResult : String → Option String
  createContactResult : String → Option String
  postCommentOk : Bool
  sendOk : Bool
  nowIso : String

/-- The full `extractSenderEmail` fallback chain; returns the resolved
email and the actor-lookup calls it performed. -/
def extractSenderEmail (oc : Oracle) (m : ThreadMessage) :
    Option String × List Action :=
  match extractEmailFromSendersArray m.senders with
  | some e => (some e, [])
  | none =>
    if jsTruthy m.fromEmail then (m.fromEmail, [])
    else if jsTruthy m.originFromEmail then (m.originFromEmail, [])
    else if jsTruthy m.messageFromEmail then (m.messageFromEmail, [])
    else if jsTruthy m.replyToEmail then (m.replyToEmail, [])
    else
      let headerGuess :=
        match pickEmailFromObject m.headers with
        | some e => some e
        | none => pickEmailFromObject m.emailHeaders
      match headerGuess with
      | some e => (some e, [])
      | none =>
        match actorIdCandidate m with
        | some a =>
          if isVActor a then (pickEmailFromObject (oc.actor a), [.getActor a])
          else (none, [])
        | none => (none, [])

/-! ## Bounce guard, intent classification and templates -/

def isBounce (m : ThreadMessage) : Bool :=
  let s := strLower (m.subject.getD "")
  let n := strLower
    ((match m.senders with
      | [] => (none : Option String)
      | x :: _ => x.name).getD "")
  strStartsWith s "undeliverable" ||
  strIncludes s "delivery status notification" ||
  strIncludes n "mail delivery subsystem" ||
  strIncludes n "microsoft outlook"

def pricingKeywords : List String :=
  ["price", "pricing", "cost", "quote", "rate", "rates"]

def demoKeywords : List String :=
  ["demo", "walkthrough", "trial", "show", "meeting", "call", "book"]

def supportKeywords : List String :=
  ["error", "bug", "issue", "broken", "doesn\x27t work", "help", "support"]

def unsubscribeKeywords : List String :=
  ["unsubscribe", "opt out", "stop emailing", "remove me"]

/-- `detectIntent`: keyword containment over the lowercased
`subject + " " + text`, checked unsubscribe → pricing → demo → support,
first match wins, else `"fallback"`. -/
def detectIntent (m : ThreadMessage) : String :=
  let txt := strLower ((m.subject.getD "") ++ " " ++ (m.text.getD ""))
  if unsubscribeKeywords.any fun k => strIncludes txt k then "unsubscribe"
  else if pricingKeywords.any fun k => strIncludes txt k then "pricing"
  else if demoKeywords.any fun k => strIncludes txt k then "demo"
  else if supportKeywords.any fun k => strIncludes txt k then "support"
  else "fallback"

def templatePricing (calendly : String) : String :=
  String.intercalate "\n"
    ["Thanks for reaching out! Here’s a quick overview of pricing:",
     "• Starter: from $299/mo",
     "• Growth: from $799/mo (includes HubSpot integration + rules)",
     "• Scale: custom (SLA + advanced routing)",
     "",
     "Happy to tailor it — book a quick call: " ++ calendly,
     "",
     "If you’d prefer not to hear from us, reply “unsubscribe.”"]

def templateDemo (calendly : String) : String :=
  String.intercalate "\n"
    ["Awesome — we’d love to show you a demo.",
     "Grab a time here: " ++ calendly,
     "",
     "If you share your use case (inbox volume, team size, goals), we’ll tailor the walkthrough."]

def templateSupport : String :=
  String.intercalate "\n"
    ["Thanks for reaching out to support!",
     "Could you share the steps to reproduce, any error messages, and a screenshot?",
     "We’ll take a look and get you unblocked."]

def templateFallback (calendly : String) : String :=
  String.intercalate "\n"
    ["Thanks for reaching out — happy to help!",
     "Could you share a bit more detail (volume, timeline, and any specs)?",
     "If convenient, you can also grab a quick call: " ++ calendly,
     "",
     "If you’d prefer not to hear from us, reply “unsubscribe.”"]

/-- `TEMPLATES[intent] || TEMPLATES.fallback`. -/
def templateFor (intent : String) (calendly : String) : String :=
  if intent = "pricing" then templatePricing calendly
  else if intent = "demo" then templateDemo calendly
  else if intent = "support" then templateSupport
  else templateFallback calendly

structure ReplyDecision where
  subject : String
  text : String
  intent : String
deriving DecidableEq

def unsubscribeReplyText : String :=
  String.intercalate "\n"
    ["You’re unsubscribed from our emails. We won’t reach out again.",
     "If this was a mistake, reply with “resubscribe.”"]

def makeReply (m : ThreadMessage) (calendly : String) : ReplyDecision :=
  let intent := detectIntent m
  let subj := "Re: " ++ jsOr m.subject "your message"
  if intent = "unsubscribe" then ⟨subj, unsubscribeReplyText, intent⟩
  else ⟨subj, templateFor intent calendly, intent⟩

/-! ## Thread inspection -/

/-- `appId && myAppId && String(appId) === myAppId`. -/
def selfApp (myAppId appId : Option String) : Bool :=
  jsTruthy appId && jsTruthy myAppId && appId = myAppId

/-- `findLatestInboundEmail(messages)`: scan the newest-first list,
skipping non-`MESSAGE` entries, `OUTGOING` entries and entries posted by
this bot's own app; the first remaining message is returned. -/
def findLatestInboundEmail (myAppId : Option String) :
    List ThreadMessage → Option ThreadMessage
  | [] => none
  | m :: ms =>
    let ty := strUpper (m.type.getD "")
    let dir := strUpper (m.direction.getD "")
    if ty ≠ "MESSAGE" then findLatestInboundEmail myAppId ms
    else if dir = "OUTGOING" then findLatestInboundEmail myAppId ms
    else if selfApp myAppId m.integrationAppId then findLatestInboundEmail myAppId ms
    else some m

/-- `findLatestAgentActorId(messages)`: actor id of the newest `OUTGOING`
`MESSAGE` whose first sender has an `A-` actor id. -/
def findLatestAgentActorId : List ThreadMessage → Option String
  | [] => none
  | m :: ms =>
    let ty := strUpper (m.type.getD "")
    let dir := strUpper (m.direction.getD "")
    let aid : Option String :=
      match m.senders with
      | [] => none
      | s :: _ => s.actorId
    if ty = "MESSAGE" && dir = "OUTGOING" && jsTruthy aid then
      match aid with
      | some a => if strStartsWith a "A-" then some a else findLatestAgentActorId ms
      | none => findLatestAgentActorId ms
    else findLatestAgentActorId ms

/-- `messages.find(m => m.channelId)?.channelId`. -/
def firstChannelId (ms : List ThreadMessage) : Option String :=
  match ms.find? fun m => jsTruthy m.channelId with
  | some m => m.channelId
  | none => none

/-- `messages.find(m => m.channelAccountId)?.channelAccountId`. -/
def firstChannelAccountId (ms : List ThreadMessage) : Option String :=
  match ms.find? fun m => jsTruthy m.channelAccountId with
  | some m => m.channelAccountId
  | none => none

/-! ## CRM tagging -/

/-- `tagIntentOnContact(email, intent)`: guarded by truthiness and
`EMAIL_RE`, then find-or-create the contact and update its intent and
timestamp properties.  Returns the CRM calls performed (each internal
failure is caught and merely stops the chain). -/
def tagIntentOnContact (env : Env) (oc : Oracle) (email intent : String) :
    List Action :=
  if email = "" || !(emailTest email) then []
  else
    let propName := jsOr env.intentProperty "bot_intent"
    let timeProp := jsOr env.intentTimeProperty "bot_last_reply_at"
    let props := [(propName, intent), (timeProp, oc.nowIso)]
    match oc.findContactResult email with
    | some cid => [.findContact email, .updateContact cid props]
    | none =>
      match oc.createContactResult email with
      | some cid => [.findContact email, .createContact email, .updateContact cid props]
      | none => [.findContact email, .createContact email]

/-! ## The event handler (Loop Guard + Thread Inspector + dispatcher) -/

/-- The three process-wide TTL sets. -/
structure GuardState where
  seen : ExpSet
  commented : ExpSet
  replied : ExpSet
deriving DecidableEq

def GuardState.empty : GuardState := ⟨ExpSet.empty, ExpSet.empty, ExpSet.empty⟩

/-- Fire the deletion timers of all three sets that are due at `t`. -/
def GuardState.fire (st : GuardState) (t : Nat) : GuardState :=
  ⟨st.seen.fire t, st.commented.fire t, st.replied.fire t⟩

def creationCommentText : String := "✅ Webhook OK — bot received the message."

def unsubAckCommentText : String := "🛑 Contact asked to unsubscribe. Bot did not reply."

def draftCommentText (r : ReplyDecision) : String :=
  "📝 Bot draft (" ++ r.intent ++ "):\n\nSubject: " ++ r.subject ++ "\n\n" ++ r.text

/-- The `conversation.creation` branch: at most one proof comment per
thread per hour; the thread is remembered before the comment is attempted
and regardless of `AUTO_COMMENT`. -/
def handleCreation (env : Env) (st : GuardState) (now : Nat) (tid : String) :
    GuardState × List Action :=
  if st.commented.members.contains tid then (st, [])
  else
    let st := { st with commented := st.commented.insert tid (now + 60 * 60 * 1000) }
    if env.autoComment = some "true" then (st, [.postComment tid creationCommentText])
    else (st, [])

/-- The `conversation.newmessage` branch: fetch, classify, tag the
contact, then dispatch at most one reply/draft/acknowledgment, gated by
`repliedThreads`. -/
def handleNewMessage (env : Env) (oc : Oracle) (st : GuardState) (now : Nat)
    (tid : String) : GuardState × List Action :=
  let reviewMode := strLower (jsOr env.replyMode "auto") = "review"
  match oc.fetchResult with
  | none => (st, [.fetchMessages tid 20])
  | some messages =>
    match findLatestInboundEmail env.hubspotAppId messages with
    | none => (st, [.fetchMessages tid 20])
    | some inbound =>
      if isBounce inbound then (st, [.fetchMessages tid 20])
      else
        let channelId :=
          if jsTruthy inbound.channelId then inbound.channelId
          else firstChannelId messages
        let channelAccountId :=
          if jsTruthy inbound.channelAccountId then inbound.channelAccountId
          else firstChannelAccountId messages
        let senderActorId :=
          if jsTruthy env.senderActorId then env.senderActorId
          else findLatestAgentActorId messages
        let resolved := extractSenderEmail oc inbound
        let toEmail := resolved.1
        let calendly := jsOr env.calendlyUrl "<YOUR-CALENDLY-LINK>"
        let reply := makeReply inbound calendly
        let tagActs :=
          if jsTruthy toEmail && reply.intent ≠ "unsubscribe" then
            tagIntentOnContact env oc (toEmail.getD "") reply.intent
          else []
        let pre := .fetchMessages tid 20 :: resolved.2 ++ tagActs
        let ttlMs := max 1 (env.replyTtlHours.getD 12) * 60 * 60 * 1000
        if st.replied.members.contains tid then (st, pre)
        else if reply.intent = "unsubscribe" then
          (st, pre ++ [.postComment tid unsubAckCommentText])
        else if reviewMode then
          if oc.postCommentOk then
            ({ st with replied := st.replied.insert tid (now + ttlMs) },
             pre ++ [.postComment tid (draftCommentText reply)])
          else (st, pre ++ [.postComment tid (draftCommentText reply)])
        else if env.autoReply = some "true" then
          if jsTruthy channelId && jsTruthy channelAccountId &&
             jsTruthy senderActorId && jsTruthy toEmail then
            let payload : SendPayload :=
              ⟨reply.text, reply.subject, toEmail.getD "", senderActorId.getD "",
               channelId.getD "", channelAccountId.getD ""⟩
            if oc.sendOk then
              ({ st with replied := st.replied.insert tid (now + ttlMs) },
               pre ++ [.sendMessage tid payload])
            else (st, pre ++ [.sendMessage tid payload])
          else (st, pre)
        else (st, pre)

/-- The effective event id: `ev.eventId || sub + ":" + objectId + ":" +
occurredAt`. -/
def eventIdOf (ev : Event) : String :=
  let sub := strLower (ev.subscriptionType.getD "")
  jsOr ev.eventId (sub ++ ":" ++ jsInterp ev.objectId ++ ":" ++ jsInterp ev.occurredAt)

/-- `handleHubSpotEvent(ev)` of the canonical iteration, at wall-clock
time `now` (the short pre-fetch sleep is treated as instantaneous).
Returns the updated TTL sets and the outbound calls made, in order. -/
def handleHubSpotEvent (env : Env) (oc : Oracle) (st0 : GuardState) (now : Nat)
    (ev : Event) : GuardState × List Action :=
  let st := st0.fire now
  let sub := strLower (ev.subscriptionType.getD "")
  let eventId := eventIdOf ev
  if st.seen.members.contains eventId then (st, [])
  else
    let st := { st with seen := st.seen.insert eventId (now + 5 * 60 * 1000) }
    if sub = "conversation.creation" then
      if !(jsTruthy ev.objectId) then (st, [])
      else handleCreation env st now ((ev.objectId).getD "")
    else if sub ≠ "conversation.newmessage" || !(jsTruthy ev.objectId) then (st, [])
    else handleNewMessage env oc st now ((ev.objectId).getD "")

/-! ## The webhook boundary -/

/-- A decoded webhook body: a single event object or an array of them. -/
inductive RawBody where
  | single (e : Event)
  | array (es : List Event)

/-- `events = Array.isArray(parsed) ? parsed : [parsed]`. -/
def normalizeBody : RawBody → List Event
  | .single e => [e]
  | .array es => es

/-- `for (const ev of events) await handleHubSpotEvent(ev)`. -/
def handleEvents (env : Env) (oc : Oracle) (now : Nat) :
    List Event → GuardState → GuardState × List Action
  | [], st => (st, [])
  | e :: es, st =>
    let r1 := handleHubSpotEvent env oc st now e
    let r2 := handleEvents env oc now es r1.1
    (r2.1, r1.2 ++ r2.2)

/-- One webhook delivery, processed at time `now`. -/
def processDelivery (env : Env) (oc : Oracle) (st : GuardState) (now : Nat)
    (body : RawBody) : GuardState × List Action :=
  handleEvents env oc now (normalizeBody body) st

/-- A sequence of deliveries of the same body, each with its own arrival
time and collaborator behaviour. -/
def processDeliveries (env : Env) (body : RawBody) :
    List (Nat × Oracle) → GuardState → GuardState × List Action
  | [], st => (st, [])
  | (t, oc) :: rest, st =>
    let r1 := processDelivery env oc st t body
    let r2 := processDeliveries env body rest r1.1
    (r2.1, r1.2 ++ r2.2)

/-- An action is an external side effect when it writes to the thread:
a posted comment or a sent message. -/
def isEffect : Action → Bool
  | .postComment _ _ => true
  | .sendMessage _ _ => true
  | _ => false

def isSend : Action → Bool
  | .sendMessage _ _ => true
  | _ => false

def isCommentAct : Action → Bool
  | .postComment _ _ => true
  | _ => false

def isFetch : Action → Bool
  | .fetchMessages _ _ => true
  | _ => false

def countEffects (acts : List Action) : Nat :=
  acts.countP fun a => isEffect a

/-! ## Basic facts about the expiring key sets -/

/-- A key that is a member and all of whose pending timers fire no earlier
than `d`: such a key stays in the set under any firing strictly before
`d`. -/
def aliveUntil (s : ExpSet) (k : String) (d : Nat) : Prop :=
  s.members.contains k = true ∧ ∀ p ∈ s.timers, p.1 = k → d ≤ p.2

/-- Every pending timer of the set fires at `d` or later. -/
def allTimersGE (s : ExpSet) (d : Nat) : Prop :=
  ∀ p ∈ s.timers, d ≤ p.2

theorem fire_timers_sub (s : ExpSet) (t : Nat) (p : String × Nat)
    (h : p ∈ (s.fire t).timers) : p ∈ s.timers := by
  simpa [ExpSet.fire] using (List.mem_of_mem_filter h)

theorem fire_eq_self_of_allGE (s : ExpSet) (t d : Nat) (hGE : allTimersGE s d)
    (ht : t < d) : s.fire t = s := by
  have hnd : ∀ p ∈ s.timers, ¬ p.2 ≤ t := by
    intro p hp hle
    exact absurd (Nat.lt_of_lt_of_le ht (hGE p hp)) (Nat.not_lt.mpr hle)
  unfold ExpSet.fire
  cases s with
  | mk ms ts =>
    simp only [ExpSet.mk.injEq]
    constructor
    · apply List.filter_eq_self.mpr
      intro a _
      simp only [Bool.not_eq_true']
      apply Bool.eq_false_iff.mpr
      intro hany
      rcases List.any_eq_true.mp hany with ⟨p, hp, hpa⟩
      simp only [Bool.and_eq_true] at hpa
      exact hnd p hp (by simpa using hpa.2)
    · apply List.filter_eq_self.mpr
      intro p hp
      simp only [Bool.not_eq_true', decide_eq_false_iff_not]
      exact hnd p hp

theorem mem_fire_of_no_due (s : ExpSet) (t : Nat) (k : String)
    (h : ∀ p ∈ s.timers, p.1 = k → t < p.2)
    (hm : s.members.contains k = true) :
    (s.fire t).members.contains k = true := by
  rw [List.elem_iff] at hm ⊢
  unfold ExpSet.fire
  simp only [List.mem_filter]
  refine ⟨hm, ?_⟩
  simp only [Bool.not_eq_true']
  apply Bool.eq_false_iff.mpr
  intro hany
  rcases List.any_eq_true.mp hany with ⟨p, hp, hpa⟩
  simp only [Bool.and_eq_true] at hpa
  have hk : p.1 = k := by simpa using hpa.1
  have hle : p.2 ≤ t := by simpa using hpa.2
  exact absurd (h p hp hk) (Nat.not_lt.mpr hle)

theorem not_mem_fire_of_due (s : ExpSet) (t : Nat) (k : String)
    (p : String × Nat) (hp : p ∈ s.timers) (hk : p.1 = k) (hle : p.2 ≤ t) :
    (s.fire t).members.contains k = false := by
  apply Bool.not_eq_true _ |>.mp
  intro hmem
  rw [List.elem_iff] at hmem
  unfold ExpSet.fire at hmem
  rcases List.mem_filter.mp hmem with ⟨_, hpred⟩
  simp only [Bool.not_eq_true'] at hpred
  have : s.timers.any (fun q => q.1 = k && decide (q.2 ≤ t)) = true :=
    List.any_eq_true.mpr ⟨p, hp, by simp [hk, hle]⟩
  rw [this] at hpred
  cases hpred

theorem insert_contains (s : ExpSet) (k : String) (d : Nat) :
    (s.insert k d).members.contains k = true := by
  unfold ExpSet.insert
  rw [List.elem_iff]
  by_cases h : k ∈ s.members <;> simp [List.elem_iff, h]

theorem insert_contains_mono (s : ExpSet) (k k' : String) (d : Nat)
    (h : s.members.contains k' = true) :
    (s.insert k d).members.contains k' = true := by
  unfold ExpSet.insert
  rw [List.elem_iff] at h ⊢
  by_cases hc : k ∈ s.members <;> simp [List.elem_iff, hc, h]

theorem insert_timers (s : ExpSet) (k : String) (d : Nat) :
    (s.insert k d).timers = (k, d) :: s.timers := rfl

/-! ## Claim C10 — commentedThreads is marked before the comment attempt -/

theorem fire_timers_not_due (s : ExpSet) (t : Nat) (p : String × Nat)
    (h : p ∈ (s.fire t).timers) : ¬ p.2 ≤ t := by
  unfold ExpSet.fire at h
  have := List.mem_filter.mp h
  simpa using this.2

theorem handleCreation_commented_insert (env : Env) (st : GuardState) (now : Nat)
    (tid : String) (h : st.commented.members.contains tid = false) :
    (handleCreation env st now tid).1.commented =
      st.commented.insert tid (now + 60 * 60 * 1000) := by
  unfold handleCreation
  rw [if_neg (ne_true_of_eq_false h)]
  dsimp only
  split <;> rfl

/-- A creation event on a thread currently recorded in `commentedThreads`
posts nothing. -/
theorem creation_no_comment_when_marked (env : Env) (oc2 : Oracle)
    (st1 : GuardState) (t2 : Nat) (ev2 : Event) (tid : String)
    (hsub2 : strLower (ev2.subscriptionType.getD "") = "conversation.creation")
    (hobj2 : ev2.objectId = some tid) (htid : tid ≠ "")
    (hcontains2 : ((st1.fire t2).commented).members.contains tid = true) :
    ((handleHubSpotEvent env oc2 st1 t2 ev2).2.any isCommentAct) = false := by
  have htr2 : jsTruthy ev2.objectId = true := by
    rw [hobj2]; simpa [jsTruthy] using htid
  unfold handleHubSpotEvent
  rw [hsub2]
  dsimp only
  split
  · rfl
  · rw [if_pos rfl]
    rw [if_neg (by simp [htr2])]
    rw [hobj2]
    simp only [Option.getD_some]
    unfold handleCreation
    rw [if_pos hcontains2]
    rfl

/-- C10: a creation event whose thread is not yet in `commentedThreads`
(and has no pending deletion timer for it beyond `t1`) records the thread
— whatever `AUTO_COMMENT` is and whatever the collaborator does — and any
second creation event on the same thread within the hour posts no
comment. -/
theorem C10_creation_single_shot (env : Env) (oc : Oracle) (st : GuardState)
    (t1 : Nat) (ev1 : Event) (tid : String)
    (hsub1 : strLower (ev1.subscriptionType.getD "") = "conversation.creation")
    (hobj1 : ev1.objectId = some tid) (htid : tid ≠ "")
    (hdup1 : (st.fire t1).seen.members.contains (eventIdOf ev1) = false)
    (hcomm : (st.fire t1).commented.members.contains tid = false)
    (htimers : ∀ p ∈ st.commented.timers, p.1 = tid → p.2 ≤ t1) :
    ((handleHubSpotEvent env oc st t1 ev1).1.commented.members.contains tid = true) ∧
    (∀ (oc2 : Oracle) (ev2 : Event) (t2 : Nat),
      strLower (ev2.subscriptionType.getD "") = "conversation.creation" →
      ev2.objectId = some tid →
      t2 < t1 + 60 * 60 * 1000 →
      ((handleHubSpotEvent env oc2 (handleHubSpotEvent env oc st t1 ev1).1 t2 ev2).2.any
        isCommentAct) = false) := by
  have htr : jsTruthy ev1.objectId = true := by
    rw [hobj1]; simpa [jsTruthy] using htid
  have hstep : (handleHubSpotEvent env oc st t1 ev1).1.commented =
      (st.fire t1).commented.insert tid (t1 + 60 * 60 * 1000) := by
    unfold handleHubSpotEvent
    rw [hsub1]
    dsimp only
    rw [if_neg (ne_true_of_eq_false hdup1)]
    rw [if_pos rfl]
    rw [if_neg (by simp [htr])]
    rw [hobj1]
    simp only [Option.getD_some]
    exact handleCreation_commented_insert env _ t1 tid hcomm
  have hmem1 : (handleHubSpotEvent env oc st t1 ev1).1.commented.members.contains tid
      = true := by
    rw [hstep]; exact insert_contains _ _ _
  refine ⟨hmem1, ?_⟩
  intro oc2 ev2 t2 hsub2 hobj2 ht2
  have hcontains2 :
      (((handleHubSpotEvent env oc st t1 ev1).1.fire t2).commented).members.contains tid
        = true := by
    show ((handleHubSpotEvent env oc st t1 ev1).1.commented.fire t2).members.contains tid
        = true
    rw [hstep]
    apply mem_fire_of_no_due
    · intro p hp hk
      rw [insert_timers] at hp
      rcases List.mem_cons.mp hp with hp | hp
      · rw [hp]; exact ht2
      · exfalso
        have h1 := htimers p (fire_timers_sub _ _ _ hp) hk
        exact fire_timers_not_due _ _ _ hp h1
    · exact insert_contains _ _ _
  exact creation_no_comment_when_marked env oc2 _ t2 ev2 tid hsub2 hobj2 htid hcontains2

def c10env : Env := blankEnv

def c10oracle : Oracle :=
  ⟨none, fun _ => none, fun _ => none, fun _ => none, false, true, "t0"⟩

def c10ev1 : Event := ⟨some "conversation.creation", some "T7", some "E7", none⟩

def c10ev2 : Event := ⟨some "conversation.creation", some "T7", some "E8", none⟩

/-- C10 witness: with `AUTO_COMMENT` unset the first handling posts
nothing, yet the thread is recorded, and a second creation event on the
same thread 30 minutes later posts no comment either. -/
theorem C10_witness :
    ((handleHubSpotEvent c10env c10oracle GuardState.empty 0 c10ev1).1.commented.members.contains
      "T7" = true) ∧
    ((handleHubSpotEvent c10env c10oracle
        (handleHubSpotEvent c10env c10oracle GuardState.empty 0 c10ev1).1
        (30 * 60 * 1000) c10ev2).2.any isCommentAct) = false := by
  have h := C10_creation_single_shot c10env c10oracle GuardState.empty 0 c10ev1 "T7"
    (by decide) rfl (by decide) rfl rfl (by intro p hp; cases hp)
  exact ⟨h.1, h.2 c10oracle c10ev2 (30 * 60 * 1000) (by decide) rfl (by decide)⟩

/-! ## Claim C4 — Expiring Key Set deadlines -/

/-- C4 counterexample: the claim asserts that re-inserting a present key
resets its deadline to `now + ttl`, keeping it until the new deadline.
Insert `"k"` at time 0 with TTL 10 and again at time 5 with TTL 10: the
new deadline is 15, yet at time 12 the key is already gone, because the
deletion scheduled by the first insertion still fires at time 10. -/
theorem C4_counterexample :
    12 < 5 + 10 ∧
    ExpSet.memAt (remember (remember ExpSet.empty 0 "k" 10) 5 "k" 10) 12 "k" = false := by
  constructor
  · decide
  · rfl

/-- C4 (amended): a key inserted with TTL `ttl` is present immediately
after insertion (and at any time before `now + ttl`) and absent at or
after `now + ttl`; re-inserting the key while it is still present does
**not** extend its lifetime — the deletion scheduled by the first
insertion still fires, so the key is absent at or after the original
deadline `now + ttl`. -/
theorem C4_expiry (s : ExpSet) (k : String) (now t1 ttl : Nat)
    (hclean : ∀ p ∈ s.timers, p.1 ≠ k) (ht1 : t1 < now + ttl) :
    (∀ t, t < now + ttl → ExpSet.memAt (remember s now k ttl) t k = true) ∧
    (∀ t, now + ttl ≤ t → ExpSet.memAt (remember s now k ttl) t k = false) ∧
    (∀ t, now + ttl ≤ t →
      ExpSet.memAt (remember (remember s now k ttl) t1 k ttl) t k = false) := by
  have hclean1 : ∀ p ∈ (remember s now k ttl).timers, p.1 = k → p.2 = now + ttl := by
    intro p hp
    rw [remember, insert_timers] at hp
    rcases List.mem_cons.mp hp with hp | hp
    · intro _; simp [hp]
    · intro hk
      exact absurd hk (hclean p (fire_timers_sub s now p hp))
  have hhead : ((k, now + ttl) : String × Nat) ∈ (remember s now k ttl).timers := by
    rw [remember, insert_timers]; exact List.mem_cons_self _ _
  have hmem1 : (remember s now k ttl).members.contains k = true := by
    rw [remember]; exact insert_contains _ _ _
  refine ⟨?_, ?_, ?_⟩
  · intro t ht
    unfold ExpSet.memAt
    apply mem_fire_of_no_due
    · intro p hp hk
      rw [hclean1 p hp hk]; exact ht
    · exact hmem1
  · intro t ht
    exact not_mem_fire_of_due _ _ _ _ hhead rfl (by simpa using ht)
  · intro t ht
    have hsurv : ((k, now + ttl) : String × Nat) ∈
        (remember (remember s now k ttl) t1 k ttl).timers := by
      rw [remember, insert_timers]
      apply List.mem_cons_of_mem
      unfold ExpSet.fire
      apply List.mem_filter.mpr
      refine ⟨hhead, ?_⟩
      simp only [Bool.not_eq_true', decide_eq_false_iff_not]
      exact Nat.not_le.mpr ht1
    exact not_mem_fire_of_due _ _ _ _ hsurv rfl (by simpa using ht)

/-- C4 witness for the amended theorem at concrete values. -/
theorem C4_expiry_witness :
    ExpSet.memAt (remember ExpSet.empty 0 "k" 10) 9 "k" = true ∧
    ExpSet.memAt (remember ExpSet.empty 0 "k" 10) 10 "k" = false ∧
    ExpSet.memAt (remember (remember ExpSet.empty 0 "k" 10) 5 "k" 10) 10 "k" = false := by
  have h := C4_expiry ExpSet.empty "k" 0 5 10 (by intro p hp; cases hp) (by decide)
  exact ⟨h.1 9 (by decide), h.2.1 10 (by decide), h.2.2 10 (by decide)⟩

/-! ## Structural facts about the handler -/

theorem handleCreation_seen (env : Env) (st : GuardState) (now : Nat) (tid : String) :
    (handleCreation env st now tid).1.seen = st.seen := by
  unfold handleCreation
  repeat' split
  all_goals rfl

theorem handleCreation_replied (env : Env) (st : GuardState) (now : Nat) (tid : String) :
    (handleCreation env st now tid).1.replied = st.replied := by
  unfold handleCreation
  repeat' split
  all_goals rfl

set_option maxHeartbeats 1000000 in
theorem handleNewMessage_seen (env : Env) (oc : Oracle) (st : GuardState) (now : Nat)
    (tid : String) : (handleNewMessage env oc st now tid).1.seen = st.seen := by
  unfold handleNewMessage
  repeat' (first | rfl | dsimp only | split)

set_option maxHeartbeats 1000000 in
theorem handleNewMessage_commented (env : Env) (oc : Oracle) (st : GuardState) (now : Nat)
    (tid : String) : (handleNewMessage env oc st now tid).1.commented = st.commented := by
  unfold handleNewMessage
  repeat' (first | rfl | dsimp only | split)

/-- The actor lookups of the email fallback chain are not side effects. -/
theorem extract_no_effect (oc : Oracle) (m : ThreadMessage) :
    ((extractSenderEmail oc m).2.all fun a => !(isEffect a)) = true := by
  unfold extractSenderEmail
  repeat' (first | rfl | dsimp only | split)

/-- The CRM calls of contact tagging are not side effects. -/
theorem tag_no_effect (env : Env) (oc : Oracle) (email intent : String) :
    ((tagIntentOnContact env oc email intent).all fun a => !(isEffect a)) = true := by
  unfold tagIntentOnContact
  repeat' split
  all_goals rfl

/-- Lists of collaborator calls that contain no external side effect. -/
def effectFree (l : List Action) : Prop := ∀ a ∈ l, isEffect a = false

theorem effectFree_append (l₁ l₂ : List Action) (h₁ : effectFree l₁)
    (h₂ : effectFree l₂) : effectFree (l₁ ++ l₂) := by
  intro a ha
  rcases List.mem_append.mp ha with h | h
  · exact h₁ a h
  · exact h₂ a h

theorem effectFree_of_all (l : List Action)
    (h : (l.all fun a => !(isEffect a)) = true) : effectFree l := by
  intro a ha
  have := List.all_eq_true.mp h a ha
  simpa using this

/-- The prefix of calls a new-message handling makes before dispatch —
the fetch, the actor lookups and the CRM tagging — is effect-free. -/
theorem effectFree_pre (env : Env) (oc : Oracle) (tid : String)
    (inbound : ThreadMessage) (c : Bool) (e i : String) :
    effectFree (.fetchMessages tid 20 ::
      ((extractSenderEmail oc inbound).2 ++
        if c then tagIntentOnContact env oc e i else [])) := by
  intro a ha
  rcases List.mem_cons.mp ha with rfl | ha
  · rfl
  · rcases List.mem_append.mp ha with h | h
    · exact effectFree_of_all _ (extract_no_effect oc inbound) a h
    · rcases c with _ | _
      · simp only [Bool.false_eq_true, if_false] at h; cases h
      · exact effectFree_of_all _ (tag_no_effect env oc e i) a h

/-- Variant of `effectFree_pre` with the tagging branch taken. -/
theorem effectFree_preTag (env : Env) (oc : Oracle) (tid : String)
    (inbound : ThreadMessage) (e i : String) :
    effectFree (.fetchMessages tid 20 ::
      ((extractSenderEmail oc inbound).2 ++ tagIntentOnContact env oc e i)) := by
  intro a ha
  rcases List.mem_cons.mp ha with rfl | ha
  · rfl
  · rcases List.mem_append.mp ha with h | h
    · exact effectFree_of_all _ (extract_no_effect oc inbound) a h
    · exact effectFree_of_all _ (tag_no_effect env oc e i) a h

/-- Variant of `effectFree_pre` with the tagging branch skipped. -/
theorem effectFree_preNil (oc : Oracle) (tid : String) (inbound : ThreadMessage) :
    effectFree (.fetchMessages tid 20 ::
      ((extractSenderEmail oc inbound).2 ++ ([] : List Action))) := by
  intro a ha
  rcases List.mem_cons.mp ha with rfl | ha
  · rfl
  · rcases List.mem_append.mp ha with h | h
    · exact effectFree_of_all _ (extract_no_effect oc inbound) a h
    · cases h

theorem countEffects_eq_zero (l : List Action) (h : effectFree l) :
    countEffects l = 0 :=
  List.countP_eq_zero.mpr (by intro a ha; simp [h a ha])

theorem countEffects_append (l₁ l₂ : List Action) :
    countEffects (l₁ ++ l₂) = countEffects l₁ + countEffects l₂ :=
  List.countP_append _ _ _

theorem any_false_of_effectFree (l : List Action) (p : Action → Bool)
    (hp : ∀ a, p a = true → isEffect a = true) (h : effectFree l) :
    l.any p = false := by
  apply Bool.eq_false_iff.mpr
  intro hany
  rcases List.any_eq_true.mp hany with ⟨a, ha, hpa⟩
  have heff := hp a hpa
  rw [h a ha] at heff
  cases heff

theorem bor_false {a b : Bool} (h1 : a = false) (h2 : b = false) :
    (a || b) = false := by
  rw [h1, h2]
  rfl

theorem isSend_isEffect (a : Action) (h : isSend a = true) : isEffect a = true := by
  cases a <;> first | rfl | cases h

theorem isCommentAct_isEffect (a : Action) (h : isCommentAct a = true) :
    isEffect a = true := by
  cases a <;> first | rfl | cases h

theorem GuardState.fire_seen (st : GuardState) (t : Nat) :
    (GuardState.fire st t).seen = st.seen.fire t := rfl

/-- The eventId of a handled event is in the dedup set afterwards, on
every path. -/
theorem seen_contains_self (env : Env) (oc : Oracle) (st : GuardState) (now : Nat)
    (ev : Event) :
    (handleHubSpotEvent env oc st now ev).1.seen.members.contains (eventIdOf ev) = true := by
  by_cases h : (st.fire now).seen.members.contains (eventIdOf ev) = true
  · unfold handleHubSpotEvent
    simp only [h, if_true]
    try exact h
  · have h' : (st.fire now).seen.members.contains (eventIdOf ev) = false :=
      eq_false_of_ne_true h
    unfold handleHubSpotEvent
    simp only [h', Bool.false_eq_true, if_false]
    repeat' split
    all_goals
      first
      | exact insert_contains _ _ _
      | (rw [handleCreation_seen]; exact insert_contains _ _ _)
      | (rw [handleNewMessage_seen]; exact insert_contains _ _ _)

/-! ## Claim C3 — eventId dedup gate -/

/-- C3: an event whose (possibly synthesized) eventId is already in the
`processedEventIds` set yields no collaborator call at all; and after any
handling — whatever the subscription type, thread id or collaborator
behaviour — the eventId is present in the set: it is inserted before the
type gate, the thread-presence check and every collaborator call. -/
theorem C3_dedup (env : Env) (oc : Oracle) (st : GuardState) (now : Nat) (ev : Event) :
    ((st.fire now).seen.members.contains (eventIdOf ev) = true →
      (handleHubSpotEvent env oc st now ev).2 = []) ∧
    (handleHubSpotEvent env oc st now ev).1.seen.members.contains (eventIdOf ev) = true := by
  constructor
  · intro h
    unfold handleHubSpotEvent
    simp only [h, if_true]
  · by_cases h : (st.fire now).seen.members.contains (eventIdOf ev) = true
    · unfold handleHubSpotEvent
      simp only [h, if_true]
      try exact h
    · have h' : (st.fire now).seen.members.contains (eventIdOf ev) = false :=
        eq_false_of_ne_true h
      unfold handleHubSpotEvent
      simp only [h', Bool.false_eq_true, if_false]
      repeat' split
      all_goals
        first
        | exact insert_contains _ _ _
        | (rw [handleCreation_seen]; exact insert_contains _ _ _)
        | (rw [handleNewMessage_seen]; exact insert_contains _ _ _)

/-- A state whose dedup set already holds event id `"E1"`. -/
def c3st : GuardState :=
  ⟨remember ExpSet.empty 0 "E1" (5 * 60 * 1000), ExpSet.empty, ExpSet.empty⟩

def c3ev : Event := ⟨some "conversation.creation", some "T1", some "E1", none⟩

def c3oracle : Oracle :=
  ⟨none, fun _ => none, fun _ => none, fun _ => none, true, true, "t"⟩

def c3env : Env := { blankEnv with autoComment := some "true" }

/-- C3 witness: a retried event id is suppressed with no calls, and stays
recorded. -/
theorem C3_witness :
    (handleHubSpotEvent c3env c3oracle c3st 1000 c3ev).2 = [] ∧
    (handleHubSpotEvent c3env c3oracle c3st 1000 c3ev).1.seen.members.contains
      (eventIdOf c3ev) = true := by
  have h := C3_dedup c3env c3oracle c3st 1000 c3ev
  exact ⟨h.1 (by decide), h.2⟩

/-! ## Claim C1 — behaviour when the latest message is OUTGOING -/

/-- If every fetched `MESSAGE` is `OUTGOING` or self-authored, the scan
finds no inbound candidate. -/
theorem findLatest_none (myAppId : Option String) (ms : List ThreadMessage)
    (h : ∀ m ∈ ms, strUpper (m.type.getD "") = "MESSAGE" →
      strUpper (m.direction.getD "") = "OUTGOING" ∨
        selfApp myAppId m.integrationAppId = true) :
    findLatestInboundEmail myAppId ms = none := by
  induction ms with
  | nil => rfl
  | cons m rest ih =>
    have hrest : ∀ m' ∈ rest, strUpper (m'.type.getD "") = "MESSAGE" →
        strUpper (m'.direction.getD "") = "OUTGOING" ∨
          selfApp myAppId m'.integrationAppId = true :=
      fun m' hm' => h m' (List.mem_cons_of_mem _ hm')
    unfold findLatestInboundEmail
    dsimp only
    by_cases ht : strUpper (m.type.getD "") = "MESSAGE"
    · rw [if_neg (not_not_intro ht)]
      rcases h m (List.mem_cons_self _ _) ht with hd | hs
      · rw [if_pos hd]
        exact ih hrest
      · by_cases hd : strUpper (m.direction.getD "") = "OUTGOING"
        · rw [if_pos hd]
          exact ih hrest
        · rw [if_neg hd, if_pos hs]
          exact ih hrest
    · rw [if_pos ht]
      exact ih hrest

def c1msgOut : ThreadMessage :=
  { blankMsg with type := some "MESSAGE", direction := some "OUTGOING" }

def c1msgIn : ThreadMessage :=
  { blankMsg with type := some "MESSAGE", direction := some "INCOMING" }

/-- C1 counterexample: the claim says that when the most recent fetched
message is an OUTGOING `MESSAGE` there is no genuine-inbound candidate
even if an older INCOMING message sits further down the list.  The scan
actually *skips* OUTGOING messages and keeps looking, so with the newest
message OUTGOING and an older INCOMING message present it returns the
older message as the candidate. -/
theorem C1_counterexample :
    strUpper (c1msgOut.type.getD "") = "MESSAGE" ∧
    strUpper (c1msgOut.direction.getD "") = "OUTGOING" ∧
    findLatestInboundEmail none [c1msgOut, c1msgIn] = some c1msgIn := by
  exact ⟨rfl, rfl, rfl⟩

/-- C1 (amended): on a new-message event, if **every** fetched message of
type `MESSAGE` is OUTGOING or self-authored (not merely the newest one),
the Thread Inspector yields no genuine-inbound candidate and no reply and
no comment is attempted. -/
theorem C1_all_outgoing_no_reply (env : Env) (oc : Oracle) (st : GuardState)
    (now : Nat) (ev : Event) (msgs : List ThreadMessage)
    (hsub : strLower (ev.subscriptionType.getD "") = "conversation.newmessage")
    (hfetch : oc.fetchResult = some msgs)
    (hmsgs : ∀ m ∈ msgs, strUpper (m.type.getD "") = "MESSAGE" →
      strUpper (m.direction.getD "") = "OUTGOING" ∨
        selfApp env.hubspotAppId m.integrationAppId = true) :
    findLatestInboundEmail env.hubspotAppId msgs = none ∧
    countEffects (handleHubSpotEvent env oc st now ev).2 = 0 := by
  have h1 : findLatestInboundEmail env.hubspotAppId msgs = none :=
    findLatest_none _ _ hmsgs
  refine ⟨h1, ?_⟩
  unfold handleHubSpotEvent
  rw [hsub]
  dsimp only
  split
  · rfl
  · rw [if_neg (by decide : ¬("conversation.newmessage" = "conversation.creation"))]
    by_cases hobj : jsTruthy ev.objectId = true
    · rw [if_neg (by simp [hobj])]
      unfold handleNewMessage
      dsimp only
      rw [hfetch]
      dsimp only
      rw [h1]
      rfl
    · have hobj' := eq_false_of_ne_true hobj
      rw [if_pos (by simp [hobj'])]
      rfl

/-- C1 witness for the amended theorem: a thread whose fetched history is
a single OUTGOING message yields no candidate and no side effect. -/
theorem C1_witness :
    findLatestInboundEmail none [c1msgOut] = none ∧
    countEffects (handleHubSpotEvent blankEnv
      ⟨some [c1msgOut], fun _ => none, fun _ => none, fun _ => none, true, true, "t"⟩
      GuardState.empty 0 ⟨some "conversation.newmessage", some "T2", some "E1", none⟩).2 = 0 := by
  exact C1_all_outgoing_no_reply blankEnv
    ⟨some [c1msgOut], fun _ => none, fun _ => none, fun _ => none, true, true, "t"⟩
    GuardState.empty 0 ⟨some "conversation.newmessage", some "T2", some "E1", none⟩
    [c1msgOut] (by decide) rfl
    (by
      intro m hm htype
      rcases List.mem_singleton.mp hm with rfl
      exact Or.inl rfl)

/-! ## Claim C2 — repliedThreads gate -/

/-- A new-message handling on a thread already recorded in
`repliedThreads` dispatches nothing: no comment, no send. -/
theorem handleNewMessage_replied_no_dispatch (env : Env) (oc : Oracle)
    (st : GuardState) (now : Nat) (tid : String)
    (hrep : st.replied.members.contains tid = true) :
    countEffects (handleNewMessage env oc st now tid).2 = 0 := by
  unfold handleNewMessage
  dsimp only
  cases hf : oc.fetchResult with
  | none => rfl
  | some messages =>
    dsimp only
    cases hi : findLatestInboundEmail env.hubspotAppId messages with
    | none => rfl
    | some inbound =>
      dsimp only
      by_cases hb : isBounce inbound = true
      · rw [if_pos hb]
        rfl
      · rw [if_neg hb]
        rw [if_pos hrep]
        exact countEffects_eq_zero _ (effectFree_pre _ _ _ _ _ _ _)

/-- C2 (amended): a new-message event on a thread already in
`repliedThreads` produces no reply, draft or comment — but the event
still proceeds to inspection: the thread-message fetch (and possibly
actor lookup and contact tagging) is performed; the `repliedThreads`
check runs only after inspection, immediately before dispatch. -/
theorem C2_replied_gate (env : Env) (oc : Oracle) (st : GuardState) (now : Nat)
    (ev : Event) (tid : String)
    (hsub : strLower (ev.subscriptionType.getD "") = "conversation.newmessage")
    (hobj : ev.objectId = some tid)
    (hrep : (st.fire now).replied.members.contains tid = true) :
    countEffects (handleHubSpotEvent env oc st now ev).2 = 0 := by
  unfold handleHubSpotEvent
  rw [hsub]
  dsimp only
  split
  · rfl
  · rw [if_neg (by decide : ¬("conversation.newmessage" = "conversation.creation"))]
    by_cases htr : jsTruthy ev.objectId = true
    · rw [if_neg (by simp [htr])]
      rw [hobj]
      exact handleNewMessage_replied_no_dispatch env oc _ now tid hrep
    · have htr' := eq_false_of_ne_true htr
      rw [if_pos (by simp [htr'])]
      rfl

def c2msg : ThreadMessage :=
  { blankMsg with
      type := some "MESSAGE"
      direction := some "INCOMING"
      text := some "hello there"
      senders := [⟨none, none, some "a@b.co", none, none⟩] }

def c2oracle : Oracle :=
  ⟨some [c2msg], fun _ => none, fun _ => some "C99", fun _ => none, true, true, "t0"⟩

def c2env : Env := { blankEnv with replyMode := some "review" }

def c2ev1 : Event := ⟨some "conversation.newmessage", some "T1", some "E1", none⟩

def c2ev2 : Event := ⟨some "conversation.newmessage", some "T1", some "E2", none⟩

/-- The state after a first new-message handling that posted a draft and
recorded thread `T1` in `repliedThreads`. -/
def c2st1 : GuardState :=
  (handleHubSpotEvent c2env c2oracle GuardState.empty 0 c2ev1).1

/-- C2 counterexample: the claim says an event on a thread already in
`repliedThreads` performs no thread-message fetch.  After a first
handling recorded `T1`, a second event on `T1` still fetches the thread
history (inspection runs; only the dispatch is suppressed). -/
theorem C2_counterexample :
    (c2st1.fire 1000).replied.members.contains "T1" = true ∧
    (Action.fetchMessages "T1" 20) ∈
      (handleHubSpotEvent c2env c2oracle c2st1 1000 c2ev2).2 := by
  constructor
  · rfl
  · decide

/-- C2 witness for the amended theorem at the concrete replay above. -/
theorem C2_witness :
    countEffects (handleHubSpotEvent c2env c2oracle c2st1 1000 c2ev2).2 = 0 := by
  exact C2_replied_gate c2env c2oracle c2st1 1000 c2ev2 "T1" (by decide) rfl (by rfl)

/-! ## Claim C6 — unsubscribe short-circuits to an acknowledgment -/

theorem makeReply_intent (m : ThreadMessage) (c : String) :
    (makeReply m c).intent = detectIntent m := by
  unfold makeReply
  dsimp only
  split <;> rfl

/-- C6: on a new-message event with a genuine inbound non-bounce message
classifying as unsubscribe, on a thread not yet in `repliedThreads`, the
handler posts the internal unsubscribe acknowledgment comment and sends
nothing — whatever `AUTO_REPLY` or the reply mode is (both are
unconstrained here). -/
theorem C6_unsubscribe_ack (env : Env) (oc : Oracle) (st : GuardState)
    (now : Nat) (ev : Event) (tid : String) (msgs : List ThreadMessage)
    (m : ThreadMessage)
    (hsub : strLower (ev.subscriptionType.getD "") = "conversation.newmessage")
    (hobj : ev.objectId = some tid) (htid : tid ≠ "")
    (hdup : (st.fire now).seen.members.contains (eventIdOf ev) = false)
    (hfetch : oc.fetchResult = some msgs)
    (hinb : findLatestInboundEmail env.hubspotAppId msgs = some m)
    (hbounce : isBounce m = false)
    (hint : detectIntent m = "unsubscribe")
    (hrep : (st.fire now).replied.members.contains tid = false) :
    (Action.postComment tid unsubAckCommentText) ∈
      (handleHubSpotEvent env oc st now ev).2 ∧
    ((handleHubSpotEvent env oc st now ev).2.any isSend) = false := by
  have htr : jsTruthy ev.objectId = true := by
    rw [hobj]; simpa [jsTruthy] using htid
  unfold handleHubSpotEvent
  rw [hsub]
  dsimp only
  rw [if_neg (ne_true_of_eq_false hdup)]
  rw [if_neg (by decide : ¬("conversation.newmessage" = "conversation.creation"))]
  rw [if_neg (by simp [htr])]
  rw [hobj]
  simp only [Option.getD_some]
  unfold handleNewMessage
  dsimp only
  rw [hfetch]
  dsimp only
  rw [hinb]
  dsimp only
  rw [if_neg (ne_true_of_eq_false hbounce)]
  rw [if_neg (ne_true_of_eq_false hrep)]
  rw [if_pos (by rw [makeReply_intent, hint])]
  constructor
  · exact List.mem_append.mpr (Or.inr (List.mem_singleton.mpr rfl))
  · rw [List.any_append]
    exact bor_false
      (any_false_of_effectFree _ _ isSend_isEffect (effectFree_pre _ _ _ _ _ _ _)) rfl

def c6msg : ThreadMessage :=
  { blankMsg with
      type := some "MESSAGE"
      direction := some "INCOMING"
      text := some "please unsubscribe" }

def c6oracle : Oracle :=
  ⟨some [c6msg], fun _ => none, fun _ => none, fun _ => none, true, true, "t0"⟩

def c6env : Env := { blankEnv with autoReply := some "true" }

def c6ev : Event := ⟨some "conversation.newmessage", some "T4", some "E4", none⟩

/-- C6 witness: an inbound "please unsubscribe" gets the acknowledgment
comment and no send, with `AUTO_REPLY=true`. -/
theorem C6_witness :
    (Action.postComment "T4" unsubAckCommentText) ∈
      (handleHubSpotEvent c6env c6oracle GuardState.empty 0 c6ev).2 ∧
    ((handleHubSpotEvent c6env c6oracle GuardState.empty 0 c6ev).2.any isSend) = false := by
  exact C6_unsubscribe_ack c6env c6oracle GuardState.empty 0 c6ev "T4" [c6msg] c6msg
    (by decide) rfl (by decide) rfl rfl rfl rfl (by decide) rfl

/-! ## Claim C8 — no resolvable recipient, no send -/

/-- Every dispatch branch of a new-message handling: when the email
fallback chain resolves nothing for the inbound candidate, the recipient
check of the auto-reply branch fails and no message is sent (comments may
still be posted). -/
theorem handleNewMessage_no_send_of_no_email (env : Env) (oc : Oracle)
    (st : GuardState) (now : Nat) (tid : String) (msgs : List ThreadMessage)
    (m : ThreadMessage)
    (hfetch : oc.fetchResult = some msgs)
    (hinb : findLatestInboundEmail env.hubspotAppId msgs = some m)
    (hmail : (extractSenderEmail oc m).1 = none) :
    ((handleNewMessage env oc st now tid).2.any isSend) = false := by
  unfold handleNewMessage
  dsimp only
  rw [hfetch]
  dsimp only
  rw [hinb]
  dsimp only
  by_cases hb : isBounce m = true
  · rw [if_pos hb]
    rfl
  · rw [if_neg hb]
    by_cases hr : st.replied.members.contains tid = true
    · rw [if_pos hr]
      exact any_false_of_effectFree _ _ isSend_isEffect (effectFree_pre _ _ _ _ _ _ _)
    · rw [if_neg hr]
      by_cases hu : (makeReply m (jsOr env.calendlyUrl "<YOUR-CALENDLY-LINK>")).intent =
          "unsubscribe"
      · rw [if_pos hu, List.any_append]
        exact bor_false
          (any_false_of_effectFree _ _ isSend_isEffect (effectFree_pre _ _ _ _ _ _ _)) rfl
      · rw [if_neg hu]
        by_cases hrev : strLower (jsOr env.replyMode "auto") = "review"
        · rw [if_pos hrev]
          by_cases hok : oc.postCommentOk = true
          · rw [if_pos hok, List.any_append]
            exact bor_false
              (any_false_of_effectFree _ _ isSend_isEffect (effectFree_pre _ _ _ _ _ _ _)) rfl
          · rw [if_neg hok, List.any_append]
            exact bor_false
              (any_false_of_effectFree _ _ isSend_isEffect (effectFree_pre _ _ _ _ _ _ _)) rfl
        · rw [if_neg hrev]
          by_cases har : env.autoReply = some "true"
          · rw [if_pos har]
            rw [if_neg (by simp [hmail, jsTruthy])]
            exact any_false_of_effectFree _ _ isSend_isEffect (effectFree_pre _ _ _ _ _ _ _)
          · rw [if_neg har]
            exact any_false_of_effectFree _ _ isSend_isEffect (effectFree_pre _ _ _ _ _ _ _)

/-- C8: on a new-message event with `AUTO_REPLY=true` whose genuine
inbound candidate has no resolvable sender email, `sendThreadMessage` is
never called; the only possible write-backs are internal comments. -/
theorem C8_no_recipient_no_send (env : Env) (oc : Oracle) (st : GuardState)
    (now : Nat) (ev : Event) (msgs : List ThreadMessage) (m : ThreadMessage)
    (hsub : strLower (ev.subscriptionType.getD "") = "conversation.newmessage")
    (_hauto : env.autoReply = some "true")
    (hfetch : oc.fetchResult = some msgs)
    (hinb : findLatestInboundEmail env.hubspotAppId msgs = some m)
    (hmail : (extractSenderEmail oc m).1 = none) :
    ((handleHubSpotEvent env oc st now ev).2.any isSend) = false := by
  unfold handleHubSpotEvent
  rw [hsub]
  dsimp only
  split
  · rfl
  · rw [if_neg (by decide : ¬("conversation.newmessage" = "conversation.creation"))]
    by_cases htr : jsTruthy ev.objectId = true
    · rw [if_neg (by simp [htr])]
      exact handleNewMessage_no_send_of_no_email env oc _ now _ msgs m hfetch hinb hmail
    · rw [if_pos (by simp [eq_false_of_ne_true htr])]
      rfl

def c8msg : ThreadMessage :=
  { blankMsg with
      type := some "MESSAGE"
      direction := some "INCOMING"
      text := some "quick question"
      channelId := some "1000"
      channelAccountId := some "2000" }

def c8oracle : Oracle :=
  ⟨some [c8msg], fun _ => none, fun _ => none, fun _ => none, true, true, "t0"⟩

def c8env : Env :=
  { blankEnv with autoReply := some "true", senderActorId := some "A-77" }

def c8ev : Event := ⟨some "conversation.newmessage", some "T5", some "E5", none⟩

/-- C8 witness: channel, account and sender actor resolve, but the
message carries no email anywhere, so nothing is sent. -/
theorem C8_witness :
    (extractSenderEmail c8oracle c8msg).1 = none ∧
    ((handleHubSpotEvent c8env c8oracle GuardState.empty 0 c8ev).2.any isSend) = false := by
  refine ⟨rfl, ?_⟩
  exact C8_no_recipient_no_send c8env c8oracle GuardState.empty 0 c8ev [c8msg] c8msg
    (by decide) rfl rfl rfl rfl

/-! ## Claim C9 — contact tagging is not gated by the single-shot reply gate -/

set_option maxHeartbeats 2000000 in
/-- C9: on a new-message event with a genuine inbound non-bounce message,
a resolvable sender email passing the email pattern and an intent other
than unsubscribe, the CRM contact is looked up for that email and its
intent properties updated — with `repliedThreads` content and the reply
mode left fully unconstrained (the thread may already be in
`repliedThreads`, and the mode may be review). -/
theorem C9_tagging_ungated (env : Env) (oc : Oracle) (st : GuardState)
    (now : Nat) (ev : Event) (tid : String) (msgs : List ThreadMessage)
    (m : ThreadMessage) (e cid : String)
    (hsub : strLower (ev.subscriptionType.getD "") = "conversation.newmessage")
    (hobj : ev.objectId = some tid) (htid : tid ≠ "")
    (hdup : (st.fire now).seen.members.contains (eventIdOf ev) = false)
    (hfetch : oc.fetchResult = some msgs)
    (hinb : findLatestInboundEmail env.hubspotAppId msgs = some m)
    (hbounce : isBounce m = false)
    (hmail : (extractSenderEmail oc m).1 = some e) (hne : e ≠ "")
    (hre : emailTest e = true)
    (hint : detectIntent m ≠ "unsubscribe")
    (hcid : (match oc.findContactResult e with
             | some i => some i
             | none => oc.createContactResult e) = some cid) :
    Action.findContact e ∈ (handleHubSpotEvent env oc st now ev).2 ∧
    Action.updateContact cid
      [(jsOr env.intentProperty "bot_intent", detectIntent m),
       (jsOr env.intentTimeProperty "bot_last_reply_at", oc.nowIso)] ∈
      (handleHubSpotEvent env oc st now ev).2 := by
  have htr : jsTruthy ev.objectId = true := by
    rw [hobj]; simpa [jsTruthy] using htid
  have hfind_mem :
      Action.findContact e ∈ tagIntentOnContact env oc e (detectIntent m) ∧
      Action.updateContact cid
        [(jsOr env.intentProperty "bot_intent", detectIntent m),
         (jsOr env.intentTimeProperty "bot_last_reply_at", oc.nowIso)] ∈
        tagIntentOnContact env oc e (detectIntent m) := by
    unfold tagIntentOnContact
    rw [if_neg (by simp [hne, hre])]
    dsimp only
    cases hf : oc.findContactResult e with
    | some i =>
      rw [hf] at hcid
      dsimp only at hcid
      rcases Option.some.inj hcid with rfl
      exact ⟨by simp, by simp⟩
    | none =>
      rw [hf] at hcid
      dsimp only at hcid
      rw [hcid]
      exact ⟨by simp, by simp⟩
  unfold handleHubSpotEvent
  rw [hsub]
  dsimp only
  rw [if_neg (ne_true_of_eq_false hdup)]
  rw [if_neg (by decide : ¬("conversation.newmessage" = "conversation.creation"))]
  rw [if_neg (by simp [htr])]
  rw [hobj]
  simp only [Option.getD_some]
  unfold handleNewMessage
  dsimp only
  rw [hfetch]
  dsimp only
  rw [hinb]
  dsimp only
  rw [if_neg (ne_true_of_eq_false hbounce)]
  rw [hmail]
  simp only [Option.getD_some, makeReply_intent]
  have hc : (jsTruthy (some e) && decide (detectIntent m ≠ "unsubscribe")) = true := by
    simp [jsTruthy, hne, hint]
  have hite : (if (jsTruthy (some e) && decide (detectIntent m ≠ "unsubscribe")) = true
      then tagIntentOnContact env oc e (detectIntent m)
      else []) = tagIntentOnContact env oc e (detectIntent m) := by
    rw [if_pos hc]
  simp only [hite]
  refine ⟨?_, ?_⟩ <;> repeat' split
  all_goals simp [List.mem_append, List.mem_cons, hfind_mem.1, hfind_mem.2]

def c9msg : ThreadMessage :=
  { blankMsg with
      type := some "MESSAGE"
      direction := some "INCOMING"
      text := some "what is the pricing?"
      senders := [⟨none, none, some "jane@corp.example", none, none⟩] }

def c9oracle : Oracle :=
  ⟨some [c9msg], fun _ => none, fun _ => some "C42", fun _ => none, true, true, "2026-10-11"⟩

def c9env : Env := { blankEnv with replyMode := some "review" }

def c9ev : Event := ⟨some "conversation.newmessage", some "T6", some "E6", none⟩

/-- A state whose replied set already holds `T6`, to exercise the
"tagging is not gated" part of C9. -/
def c9st : GuardState :=
  ⟨ExpSet.empty, ExpSet.empty, remember ExpSet.empty 0 "T6" (12 * 60 * 60 * 1000)⟩

/-- C9 witness: a pricing inquiry on a thread already in `repliedThreads`,
in review mode, still searches the contact and updates its intent. -/
theorem C9_witness :
    (c9st.fire 5).replied.members.contains "T6" = true ∧
    Action.findContact "jane@corp.example" ∈
      (handleHubSpotEvent c9env c9oracle c9st 5 c9ev).2 ∧
    Action.updateContact "C42"
      [("bot_intent", "pricing"), ("bot_last_reply_at", "2026-10-11")] ∈
      (handleHubSpotEvent c9env c9oracle c9st 5 c9ev).2 := by
  have h := C9_tagging_ungated c9env c9oracle c9st 5 c9ev "T6" [c9msg] c9msg
    "jane@corp.example" "C42" (by decide) rfl (by decide) rfl rfl rfl rfl rfl
    (by decide) (by decide) (by decide) rfl
  exact ⟨rfl, h.1, h.2⟩

/-! ## Claim C7 — unsubscribe keywords take precedence -/

/-- C7: `detectIntent` checks the unsubscribe keyword list first, so any
text whose lowercased `subject + " " + text` contains an unsubscribe
keyword classifies as `"unsubscribe"`, whatever else it contains. -/
theorem C7_unsubscribe_priority (m : ThreadMessage) (k : String)
    (hk : k ∈ unsubscribeKeywords)
    (hc : strIncludes (strLower ((m.subject.getD "") ++ " " ++ (m.text.getD ""))) k = true) :
    detectIntent m = "unsubscribe" := by
  unfold detectIntent
  have hany : (unsubscribeKeywords.any fun kw =>
      strIncludes (strLower ((m.subject.getD "") ++ " " ++ (m.text.getD ""))) kw) = true :=
    List.any_eq_true.mpr ⟨k, hk, hc⟩
  simp only [hany, if_true]

/-- A concrete inbound text carrying unsubscribe, pricing and demo
keywords at once. -/
def c7msg : ThreadMessage :=
  { blankMsg with text := some "Please unsubscribe me, though the pricing and the demo look great" }

/-- C7 witness: the mixed-keyword text classifies as unsubscribe even
though pricing and demo keywords are present. -/
theorem C7_witness :
    strIncludes ((" " ++ "please unsubscribe me, though the pricing and the demo look great")) "pricing" = true ∧
    strIncludes ((" " ++ "please unsubscribe me, though the pricing and the demo look great")) "demo" = true ∧
    detectIntent c7msg = "unsubscribe" := by
  refine ⟨by decide, by decide, ?_⟩
  exact C7_unsubscribe_priority c7msg "unsubscribe" (by decide) (by decide)

/-! ## Claim C5 — replay idempotence -/

theorem countEffects_pre_tail_le_one (l tail : List Action) (hl : effectFree l)
    (htail : countEffects tail ≤ 1) : countEffects (l ++ tail) ≤ 1 := by
  rw [countEffects_append, countEffects_eq_zero l hl]
  simpa using htail

theorem handleCreation_effects_le_one (env : Env) (st : GuardState) (now : Nat)
    (tid : String) : countEffects (handleCreation env st now tid).2 ≤ 1 := by
  unfold handleCreation
  repeat' split
  all_goals first
    | exact Nat.zero_le 1
    | exact Nat.le_refl 1

set_option maxHeartbeats 1000000 in
theorem handleNewMessage_effects_le_one (env : Env) (oc : Oracle) (st : GuardState)
    (now : Nat) (tid : String) :
    countEffects (handleNewMessage env oc st now tid).2 ≤ 1 := by
  unfold handleNewMessage
  dsimp only
  repeat' (first | dsimp only | split)
  all_goals
    first
    | exact Nat.zero_le 1
    | exact le_of_eq_of_le (countEffects_eq_zero _ (effectFree_pre _ _ _ _ _ _ _))
        (Nat.zero_le 1)
    | exact le_of_eq_of_le (countEffects_eq_zero _ (effectFree_preTag _ _ _ _ _ _))
        (Nat.zero_le 1)
    | exact le_of_eq_of_le (countEffects_eq_zero _ (effectFree_preNil _ _ _))
        (Nat.zero_le 1)
    | exact countEffects_pre_tail_le_one _ _ (effectFree_pre _ _ _ _ _ _ _) (Nat.le_refl 1)
    | exact countEffects_pre_tail_le_one _ _ (effectFree_preTag _ _ _ _ _ _) (Nat.le_refl 1)
    | exact countEffects_pre_tail_le_one _ _ (effectFree_preNil _ _ _) (Nat.le_refl 1)

/-- One event causes at most one external side effect. -/
theorem handle_effects_le_one (env : Env) (oc : Oracle) (st : GuardState) (now : Nat)
    (ev : Event) : countEffects (handleHubSpotEvent env oc st now ev).2 ≤ 1 := by
  unfold handleHubSpotEvent
  dsimp only
  repeat' split
  all_goals first
    | exact Nat.zero_le 1
    | exact handleCreation_effects_le_one _ _ _ _
    | exact handleNewMessage_effects_le_one _ _ _ _ _

/-- One delivery causes at most one side effect per event of its body. -/
theorem handleEvents_effects_le (env : Env) (oc : Oracle) (now : Nat)
    (evs : List Event) : ∀ st : GuardState,
    countEffects (handleEvents env oc now evs st).2 ≤ evs.length := by
  induction evs with
  | nil => intro st; exact Nat.zero_le 0
  | cons e es ih =>
    intro st
    unfold handleEvents
    dsimp only
    rw [countEffects_append]
    have h1 := handle_effects_le_one env oc st now e
    have h2 := ih (handleHubSpotEvent env oc st now e).1
    simp only [List.length_cons]
    omega

theorem allTimersGE_insert (s : ExpSet) (k : String) (dl d : Nat)
    (hs : allTimersGE s d) (hdl : d ≤ dl) : allTimersGE (s.insert k dl) d := by
  intro p hp
  rw [insert_timers] at hp
  rcases List.mem_cons.mp hp with rfl | hp
  · exact hdl
  · exact hs p hp

theorem allTimersGE_fire (s : ExpSet) (t d : Nat) (hs : allTimersGE s d) :
    allTimersGE (s.fire t) d :=
  fun p hp => hs p (fire_timers_sub _ _ _ hp)

/-- Handling at `now` keeps every dedup-set timer at or beyond `d`
whenever the insertion deadline `now + 5min` is at or beyond `d`. -/
theorem handle_seen_allGE (env : Env) (oc : Oracle) (st : GuardState) (now : Nat)
    (ev : Event) (d : Nat) (hGE : allTimersGE st.seen d)
    (hd : d ≤ now + 5 * 60 * 1000) :
    allTimersGE (handleHubSpotEvent env oc st now ev).1.seen d := by
  have hfire : allTimersGE (st.seen.fire now) d := allTimersGE_fire _ _ _ hGE
  have hins : allTimersGE ((st.seen.fire now).insert (eventIdOf ev)
      (now + 5 * 60 * 1000)) d := allTimersGE_insert _ _ _ _ hfire hd
  unfold handleHubSpotEvent
  dsimp only
  repeat' split
  all_goals
    first
    | exact hfire
    | exact hins
    | (rw [handleCreation_seen]; exact hins)
    | (rw [handleNewMessage_seen]; exact hins)

/-- A replayed (already seen) event is a complete no-op apart from timer
firing. -/
theorem handle_dup_noop (env : Env) (oc : Oracle) (st : GuardState) (now : Nat)
    (ev : Event)
    (h : (st.fire now).seen.members.contains (eventIdOf ev) = true) :
    handleHubSpotEvent env oc st now ev = (st.fire now, []) := by
  unfold handleHubSpotEvent
  dsimp only
  rw [if_pos h]

/-- Handling one event never evicts another key that cannot yet expire. -/
theorem handle_seen_contains_mono (env : Env) (oc : Oracle) (st : GuardState)
    (now : Nat) (ev : Event) (k : String) (d : Nat)
    (hGE : allTimersGE st.seen d) (hnow : now < d)
    (h : st.seen.members.contains k = true) :
    (handleHubSpotEvent env oc st now ev).1.seen.members.contains k = true := by
  have hfeq : st.seen.fire now = st.seen := fire_eq_self_of_allGE _ _ _ hGE hnow
  have hck : ((st.fire now).seen).members.contains k = true := by
    show (st.seen.fire now).members.contains k = true
    rw [hfeq]
    exact h
  by_cases hdup : ((st.fire now).seen).members.contains (eventIdOf ev) = true
  · rw [handle_dup_noop env oc st now ev hdup]
    exact hck
  · unfold handleHubSpotEvent
    dsimp only
    rw [if_neg hdup]
    repeat' split
    all_goals
      first
      | exact insert_contains_mono _ _ _ _ hck
      | (rw [handleCreation_seen]; exact insert_contains_mono _ _ _ _ hck)
      | (rw [handleNewMessage_seen]; exact insert_contains_mono _ _ _ _ hck)

theorem handleEvents_contains_mono (env : Env) (oc : Oracle) (now d : Nat)
    (hnow : now < d) (hd : d ≤ now + 5 * 60 * 1000) (evs : List Event) :
    ∀ (st : GuardState) (k : String), allTimersGE st.seen d →
    st.seen.members.contains k = true →
    (handleEvents env oc now evs st).1.seen.members.contains k = true := by
  induction evs with
  | nil => intro st k _ h; exact h
  | cons e es ih =>
    intro st k hGE h
    unfold handleEvents
    dsimp only
    exact ih _ k (handle_seen_allGE env oc st now e d hGE hd)
      (handle_seen_contains_mono env oc st now e k d hGE hnow h)

/-- After a delivery at `t1` starting from a dedup set whose timers all
run to `t1 + 5min` or later, every event of the delivery is recorded and
the timer bound still holds. -/
theorem handleEvents_establish (env : Env) (oc : Oracle) (t1 : Nat)
    (evs : List Event) : ∀ st : GuardState,
    allTimersGE st.seen (t1 + 5 * 60 * 1000) →
    allTimersGE (handleEvents env oc t1 evs st).1.seen (t1 + 5 * 60 * 1000) ∧
    ∀ e ∈ evs,
      (handleEvents env oc t1 evs st).1.seen.members.contains (eventIdOf e) = true := by
  induction evs with
  | nil =>
    intro st h
    exact ⟨h, by intro e he; cases he⟩
  | cons e es ih =>
    intro st hGE
    have hGE1 := handle_seen_allGE env oc st t1 e _ hGE (le_refl _)
    have hc1 := seen_contains_self env oc st t1 e
    obtain ⟨hGEfin, hallfin⟩ := ih _ hGE1
    unfold handleEvents
    dsimp only
    refine ⟨hGEfin, ?_⟩
    intro e' he'
    rcases List.mem_cons.mp he' with rfl | he'
    · exact handleEvents_contains_mono env oc t1 _ (by omega) (le_refl _) es _ _ hGE1 hc1
    · exact hallfin e' he'

/-- A delivery whose events are all already recorded produces nothing and
leaves the dedup set untouched. -/
theorem handleEvents_all_dup (env : Env) (oc : Oracle) (t d : Nat) (ht : t < d)
    (evs : List Event) : ∀ st : GuardState, allTimersGE st.seen d →
    (∀ e ∈ evs, st.seen.members.contains (eventIdOf e) = true) →
    (handleEvents env oc t evs st).1.seen = st.seen ∧
      (handleEvents env oc t evs st).2 = [] := by
  induction evs with
  | nil => intro st _ _; exact ⟨rfl, rfl⟩
  | cons e es ih =>
    intro st hGE hall
    have hfeq : st.seen.fire t = st.seen := fire_eq_self_of_allGE _ _ _ hGE ht
    have hdup : ((st.fire t).seen).members.contains (eventIdOf e) = true := by
      show (st.seen.fire t).members.contains (eventIdOf e) = true
      rw [hfeq]
      exact hall e (List.mem_cons_self _ _)
    have hnoop := handle_dup_noop env oc st t e hdup
    have hGE' : allTimersGE (st.fire t).seen d := by
      show allTimersGE (st.seen.fire t) d
      rw [hfeq]
      exact hGE
    have hall' : ∀ e' ∈ es, ((st.fire t).seen).members.contains (eventIdOf e') = true := by
      intro e' he'
      show (st.seen.fire t).members.contains (eventIdOf e') = true
      rw [hfeq]
      exact hall e' (List.mem_cons_of_mem _ he')
    obtain ⟨ihs, iha⟩ := ih (st.fire t) hGE' hall'
    unfold handleEvents
    dsimp only
    rw [hnoop]
    dsimp only
    constructor
    · rw [ihs]
      show st.seen.fire t = st.seen
      exact hfeq
    · rw [iha]
      rfl

/-- Replay deliveries, all of whose events are recorded until `d`, are
silent. -/
theorem processDeliveries_dup (env : Env) (body : RawBody) (d : Nat)
    (rest : List (Nat × Oracle)) : ∀ st : GuardState,
    allTimersGE st.seen d →
    (∀ e ∈ normalizeBody body, st.seen.members.contains (eventIdOf e) = true) →
    (∀ p ∈ rest, p.1 < d) →
    (processDeliveries env body rest st).2 = [] := by
  induction rest with
  | nil => intro st _ _ _; rfl
  | cons p rest ih =>
    intro st hGE hall hts
    obtain ⟨t, oc⟩ := p
    have ht : t < d := hts (t, oc) (List.mem_cons_self _ _)
    obtain ⟨hseen, hacts⟩ :=
      handleEvents_all_dup env oc t d ht (normalizeBody body) st hGE hall
    unfold processDeliveries
    dsimp only
    unfold processDelivery
    rw [hacts]
    have hGE' : allTimersGE (handleEvents env oc t (normalizeBody body) st).1.seen d := by
      rw [hseen]; exact hGE
    have hall' : ∀ e ∈ normalizeBody body,
        (handleEvents env oc t (normalizeBody body) st).1.seen.members.contains
          (eventIdOf e) = true := by
      intro e he
      rw [hseen]
      exact hall e he
    rw [ih _ hGE' hall' (fun q hq => hts q (List.mem_cons_of_mem _ hq))]
    rfl

def c5ev1 : Event := ⟨some "conversation.creation", some "T1", some "E1", none⟩

def c5ev2 : Event := ⟨some "conversation.creation", some "T2", some "E2", none⟩

def c5env : Env := { blankEnv with autoComment := some "true" }

def c5oracle : Oracle :=
  ⟨none, fun _ => none, fun _ => none, fun _ => none, true, true, "t"⟩

/-- C5 counterexample: the claim bounds the **total** number of side
effects of N deliveries of one body by one.  A single delivery (N = 1) of
a body holding two creation events on two threads already posts two
comments. -/
theorem C5_counterexample :
    countEffects (processDeliveries c5env (.array [c5ev1, c5ev2])
      [(0, c5oracle)] GuardState.empty).2 = 2 := by
  rfl

/-- C5 (amended): delivering a byte-identical body once at `t1` and then
arbitrarily often within the 5-minute dedup TTL produces at most one
external side effect per event of the body in total — replays add
nothing.  In particular a single-event body causes at most one side
effect however often it is replayed. -/
theorem C5_idempotent_replay (env : Env) (body : RawBody) (t1 : Nat) (oc1 : Oracle)
    (rest : List (Nat × Oracle))
    (hrest : ∀ p ∈ rest, p.1 < t1 + 5 * 60 * 1000) :
    countEffects (processDeliveries env body ((t1, oc1) :: rest) GuardState.empty).2 ≤
      (normalizeBody body).length := by
  have hGE0 : allTimersGE (GuardState.empty).seen (t1 + 5 * 60 * 1000) := by
    intro p hp
    cases hp
  obtain ⟨hGE1, hall1⟩ :=
    handleEvents_establish env oc1 t1 (normalizeBody body) GuardState.empty hGE0
  have hle := handleEvents_effects_le env oc1 t1 (normalizeBody body) GuardState.empty
  have hdup := processDeliveries_dup env body (t1 + 5 * 60 * 1000) rest
    (handleEvents env oc1 t1 (normalizeBody body) GuardState.empty).1 hGE1 hall1 hrest
  unfold processDeliveries
  dsimp only
  unfold processDelivery
  rw [hdup, List.append_nil]
  exact hle

/-- C5 witness: one creation event, delivered at 0 and replayed at 1000
and 2000 ms, posts exactly one comment — and the amended bound applies. -/
theorem C5_witness :
    countEffects (processDeliveries c5env (.single c5ev1)
      [(0, c5oracle), (1000, c5oracle), (2000, c5oracle)] GuardState.empty).2 ≤ 1 := by
  exact C5_idempotent_replay c5env (.single c5ev1) 0 c5oracle
    [(1000, c5oracle), (2000, c5oracle)] (by decide)


end AlexIo
